import Mathlib

/-!
# Commitment service: embedding of `pkg/service/service.go`

The service talks to two remote nodes (L1 and L2) through RPC clients.  The
remote side is embedded as a `World`: for every RPC operation a function from
the number of RPC calls issued so far (and the call's arguments) to the answer
of the node.  Every service method threads a `Trace`, the list of RPC calls
issued so far, so that "which calls were made, in which order, with which
payload" is part of the result.

Machine integers (`uint64`) are natural numbers with explicit `% 2 ^ 64` on
every addition and subtraction; a `byte` is a `Fin 256`.  A `*big.Int` is an
`Option Int`, `none` being the nil pointer; a method that dereferences one
without a check returns an `Outcome`, which has a case for the panic.
-/

namespace CommitmentService

/-! ## Data model -/

/-- A Go `byte`. -/
abbrev Byte := Fin 256

/-- A Go `[]byte`. -/
abbrev Bytes := List Byte

/-- A Go `error`, identified by its message. -/
abbrev Error := String

/-- The go-ethereum `common.Hash` (32 bytes). -/
abbrev Hash := List Byte

/-- The go-ethereum `common.Address` (20 bytes). -/
abbrev Address := List Byte

/-- Modulus of `uint64` arithmetic. -/
def uint64Mod : Nat := 2 ^ 64

/-- Go's `uint64` addition. -/
def addU64 (a b : Nat) : Nat := (a + b) % uint64Mod

/-- Go's `uint64` subtraction (wraps around below zero). -/
def subU64 (a b : Nat) : Nat := (a + uint64Mod - b % uint64Mod) % uint64Mod

/-- The method `(*big.Int).Uint64`: the low 64 bits of the absolute value. -/
def bigUint64 (x : Int) : Nat := x.natAbs % uint64Mod

/-- The conversion `[]byte(s)` of a Go string: its UTF-8 bytes. -/
def bytesOfString (s : String) : Bytes :=
  (s.data.flatMap String.utf8EncodeChar).map (fun b => b.val)

/-- The go-ethereum `ethereum.CallMsg`, restricted to the fields the service sets. -/
structure CallMsg where
  To : Address
  Data : Bytes
deriving DecidableEq, Repr

/-- The go-ethereum `types.Receipt`, restricted to the fields the service reads.
`BlockNumber` is a `*big.Int` in Go: `none` is the nil pointer, which the client
leaves in place (with a nil error) when the node's answer carries no block
number. -/
structure Receipt where
  Status : Nat
  BlockNumber : Option Int
  GasUsed : Nat
deriving DecidableEq, Repr

/-- The outcome of a method that may dereference a nil pointer: a value, a
returned error, or a run-time panic. -/
inductive Outcome (α : Type) where
  | ok (a : α)
  | error (err : Error)
  | panic
deriving DecidableEq, Repr

/-- The go-ethereum `types.Transaction`, restricted to what the service reads:
the value of `tx.GasPrice()`, a `*big.Int`. -/
structure Transaction where
  GasPrice : Int
deriving DecidableEq, Repr

/-- One RPC call issued by the service. -/
inductive Call where
  | l1CallContract (msg : CallMsg)
  | l1BlockNumber
  | l2BlockNumber
  | l2TransactionReceipt (hash : Hash)
  | l2TransactionByHash (hash : Hash)
deriving DecidableEq, Repr

/-- The RPC calls issued so far, oldest first. -/
abbrev Trace := List Call

/-- The remote nodes and the wall clock.  The first argument of every field is
the number of RPC calls issued before this one, so two calls with the same
arguments may be answered differently. -/
structure World where
  l1CallContract : Nat → CallMsg → Except Error Bytes
  l1BlockNumber : Nat → Except Error Nat
  l2BlockNumber : Nat → Except Error Nat
  l2TransactionReceipt : Nat → Hash → Except Error Receipt
  l2TransactionByHash : Nat → Hash → Except Error (Transaction × Bool)
  now : Nat → Int

/-- The struct `Service`: the oracle address and the start time (nanoseconds).
The two RPC clients are the `World`; the configuration is not read by any
method embedded here. -/
structure Service where
  l2ooAddr : Address
  startTime : Int
deriving DecidableEq, Repr

/-- The struct `CommitmentStatus`.  Times are nanoseconds; `Uptime` holds the
duration whose `String()` rendering the Go field carries. -/
structure CommitmentStatus where
  LatestBlockNumber : Nat
  LatestOutputIndex : Nat
  NextBlockNumber : Nat
  LastProposalTime : Int
  TotalCommitments : Nat
  IsServiceHealthy : Bool
  LastCommitmentHash : String
  ProofGenerationTime : String
  Uptime : Int
deriving DecidableEq, Repr

/-- The struct `TransactionStatus`.  Times are nanoseconds. -/
structure TransactionStatus where
  TxHash : String
  BlockNumber : Nat
  Status : String
  Committed : Bool
  CommitmentAt : Int
  ProofHash : String
  GasUsed : Nat
  EffectiveGasPrice : String
deriving DecidableEq, Repr

/-- The constant `time.Minute`, in nanoseconds. -/
def minute : Int := 60000000000

/-! ## The go-ethereum helper `common.HexToHash`

`HexToHash(s) = BytesToHash(FromHex(s))`.  It has no error result: a string
that is not hexadecimal is decoded up to its first bad digit pair, and the
bytes obtained are cropped from the left or zero-padded on the left to 32. -/

/-- The length of a hash, `common.HashLength`. -/
def HashLength : Nat := 32

/-- The helper `has0xPrefix`: does the input begin with `0x` or `0X`? -/
def has0xPrefix (str : Bytes) : Bool :=
  match str with
  | c0 :: c1 :: _ => c0.val == 48 && (c1.val == 120 || c1.val == 88)
  | _ => false

/-- The value of one hexadecimal digit (`encoding/hex`), `none` for any other byte. -/
def fromHexChar (c : Byte) : Option Nat :=
  if 48 ≤ c.val ∧ c.val ≤ 57 then some (c.val - 48)
  else if 97 ≤ c.val ∧ c.val ≤ 102 then some (c.val - 97 + 10)
  else if 65 ≤ c.val ∧ c.val ≤ 70 then some (c.val - 65 + 10)
  else none

/-- The helper `Hex2Bytes`: `hex.DecodeString` with its error dropped, which
leaves the bytes decoded before the first invalid digit pair. -/
def Hex2Bytes : Bytes → Bytes
  | p :: q :: rest =>
    match fromHexChar p, fromHexChar q with
    | some a, some b => Fin.ofNat (a * 16 + b) :: Hex2Bytes rest
    | _, _ => []
  | _ => []

/-- The helper `FromHex`: strip an optional `0x`, pad an odd length with a
leading `0`, decode. -/
def FromHex (s : Bytes) : Bytes :=
  let s1 := if has0xPrefix s then s.drop 2 else s
  let s2 := if s1.length % 2 == 1 then (48 : Byte) :: s1 else s1
  Hex2Bytes s2

/-- The helper `BytesToHash` (`Hash.SetBytes`): keep the last 32 bytes, pad on
the left with zeros. -/
def BytesToHash (b : Bytes) : Hash :=
  let b1 := if b.length > HashLength then b.drop (b.length - HashLength) else b
  List.replicate (HashLength - b1.length) (0 : Byte) ++ b1

/-- The function `common.HexToHash`. -/
def HexToHash (s : String) : Hash :=
  BytesToHash (FromHex (bytesOfString s))

/-! ## The service methods -/

/-- The method `getLatestBlockNumber`: one `CallContract` on the L1 client with
the bytes of the string literal as call data; the answer is decoded as the
byte at index 31. -/
def getLatestBlockNumber (s : Service) (w : World) (tr : Trace) :
    Except Error Nat × Trace :=
  let data := bytesOfString "0x2e17de78"
  let msg : CallMsg := { To := s.l2ooAddr, Data := data }
  match w.l1CallContract tr.length msg with
  | .error err => (.error err, tr ++ [Call.l1CallContract msg])
  | .ok result =>
    if h : result.length ≥ 32 then
      (.ok (result.get ⟨31, by omega⟩).val, tr ++ [Call.l1CallContract msg])
    else
      (.error "invalid result length", tr ++ [Call.l1CallContract msg])

/-- The method `getLatestOutputIndex`: the same call and the same decoding. -/
def getLatestOutputIndex (s : Service) (w : World) (tr : Trace) :
    Except Error Nat × Trace :=
  let data := bytesOfString "0x2e17de78"
  let msg : CallMsg := { To := s.l2ooAddr, Data := data }
  match w.l1CallContract tr.length msg with
  | .error err => (.error err, tr ++ [Call.l1CallContract msg])
  | .ok result =>
    if h : result.length ≥ 32 then
      (.ok (result.get ⟨31, by omega⟩).val, tr ++ [Call.l1CallContract msg])
    else
      (.error "invalid result length", tr ++ [Call.l1CallContract msg])

/-- The method `checkServiceHealth`: probe the L1 height, then the L2 height. -/
def checkServiceHealth (w : World) (tr : Trace) : Bool × Trace :=
  match w.l1BlockNumber tr.length with
  | .error _ => (false, tr ++ [Call.l1BlockNumber])
  | .ok _ =>
    match w.l2BlockNumber (tr.length + 1) with
    | .error _ => (false, tr ++ [Call.l1BlockNumber, Call.l2BlockNumber])
    | .ok _ => (true, tr ++ [Call.l1BlockNumber, Call.l2BlockNumber])

/-- The method `CheckServiceHealth`. -/
def CheckServiceHealth (w : World) (tr : Trace) : Bool × Trace :=
  checkServiceHealth w tr

/-- The method `getLatestCommittedBlock`: the L2 height minus 10, or 0. -/
def getLatestCommittedBlock (w : World) (tr : Trace) : Nat × Trace :=
  match w.l2BlockNumber tr.length with
  | .error _ => (0, tr ++ [Call.l2BlockNumber])
  | .ok latestBlock =>
    if latestBlock > 10 then (subU64 latestBlock 10, tr ++ [Call.l2BlockNumber])
    else (0, tr ++ [Call.l2BlockNumber])

/-- The method `GetCommitmentStatus`. -/
def GetCommitmentStatus (s : Service) (w : World) (tr : Trace) :
    Except Error CommitmentStatus × Trace :=
  match getLatestBlockNumber s w tr with
  | (.error err, tr1) => (.error err, tr1)
  | (.ok latestBlockNumber, tr1) =>
    match getLatestOutputIndex s w tr1 with
    | (.error err, tr2) => (.error err, tr2)
    | (.ok latestOutputIndex, tr2) =>
      let nextBlockNumber := addU64 latestBlockNumber 1800
      let lastProposalTime := w.now tr2.length - 10 * minute
      let totalCommitments := addU64 latestOutputIndex 1
      let health := checkServiceHealth w tr2
      let uptime := w.now health.2.length - s.startTime
      (.ok { LatestBlockNumber := latestBlockNumber
             LatestOutputIndex := latestOutputIndex
             NextBlockNumber := nextBlockNumber
             LastProposalTime := lastProposalTime
             TotalCommitments := totalCommitments
             IsServiceHealthy := health.1
             LastCommitmentHash := "0xabc123..."
             ProofGenerationTime := "5 minutes"
             Uptime := uptime }, health.2)

/-- The method `GetTransactionStatus`.  The call `receipt.BlockNumber.Uint64()`
that follows the height probe dereferences the pointer without a nil check, so
a receipt without block number ends the call in a panic. -/
def GetTransactionStatus (w : World) (txHash : String) (tr : Trace) :
    Outcome TransactionStatus × Trace :=
  let hash := HexToHash txHash
  match w.l2TransactionReceipt tr.length hash with
  | .error err => (.error err, tr ++ [Call.l2TransactionReceipt hash])
  | .ok receipt =>
    let tr1 := tr ++ [Call.l2TransactionReceipt hash]
    match w.l2TransactionByHash tr1.length hash with
    | .error err => (.error err, tr1 ++ [Call.l2TransactionByHash hash])
    | .ok (tx, _) =>
      let tr2 := tr1 ++ [Call.l2TransactionByHash hash]
      let lcb := getLatestCommittedBlock w tr2
      let latestCommittedBlock := lcb.1
      match receipt.BlockNumber with
      | none => (.panic, lcb.2)
      | some blockNumber =>
        let committed := decide (bigUint64 blockNumber ≤ latestCommittedBlock)
        let status := "pending"
        let status :=
          if receipt.Status == 1 then
            let status := "confirmed"
            if committed then "committed" else status
          else
            let _ := status
            "failed"
        (.ok { TxHash := txHash
               BlockNumber := bigUint64 blockNumber
               Status := status
               Committed := committed
               CommitmentAt := w.now lcb.2.length - 5 * minute
               ProofHash := "0xdef456..."
               GasUsed := receipt.GasUsed
               EffectiveGasPrice := toString tx.GasPrice }, lcb.2)

/-! ## Concrete inputs used in the examples -/

/-- An oracle address (the default of the configuration, abbreviated to zeros). -/
def addr0 : Address := List.replicate 20 0

/-- A service value. -/
def svc0 : Service := { l2ooAddr := addr0, startTime := 0 }

/-- A world in which every oracle call answers `resp`, the L1 probe answers
`l1`, the L2 probe answers `l2`, every receipt query answers `rc` and every
transaction query answers `tx`. -/
def constWorld (resp : Except Error Bytes) (l1 l2 : Except Error Nat)
    (rc : Except Error Receipt) (tx : Except Error (Transaction × Bool)) : World :=
  { l1CallContract := fun _ _ => resp
    l1BlockNumber := fun _ => l1
    l2BlockNumber := fun _ => l2
    l2TransactionReceipt := fun _ _ => rc
    l2TransactionByHash := fun _ _ => tx
    now := fun _ => 0 }

/-- A 33-byte oracle answer: 31 zero bytes, the byte 1 at index 31, then the byte 2. -/
def resp33 : Bytes := List.replicate 31 0 ++ [1, 2]

/-- A 32-byte oracle answer: 31 zero bytes, then the byte 7. -/
def resp32 : Bytes := List.replicate 31 0 ++ [7]

/-- A world whose oracle answers `resp33` and whose height probes succeed. -/
def world33 : World :=
  constWorld (.ok resp33) (.ok 0) (.ok 0) (.error "not found") (.error "not found")

/-- A world whose oracle answers `resp32` and whose height probes succeed. -/
def world32 : World :=
  constWorld (.ok resp32) (.ok 0) (.ok 0) (.error "not found") (.error "not found")

/-- The call data the two oracle queries put on the wire: the ten ASCII bytes
of the text `0x2e17de78`. -/
def sentCallData : Bytes := [0x30, 0x78, 0x32, 0x65, 0x31, 0x37, 0x64, 0x65, 0x37, 0x38]

/-- The four-byte function selector `2e 17 de 78`. -/
def selector4 : Bytes := [0x2e, 0x17, 0xde, 0x78]

/-- The commitment status computed in `world32` from the empty trace. -/
def status32 : CommitmentStatus :=
  { LatestBlockNumber := 7
    LatestOutputIndex := 7
    NextBlockNumber := 1807
    LastProposalTime := -600000000000
    TotalCommitments := 8
    IsServiceHealthy := true
    LastCommitmentHash := "0xabc123..."
    ProofGenerationTime := "5 minutes"
    Uptime := 0 }

/-- A world whose first oracle call is refused and whose later calls and probes succeed. -/
def worldFirstFails : World :=
  { l1CallContract := fun t _ => if t = 0 then .error "execution reverted" else .ok resp32
    l1BlockNumber := fun _ => .ok 0
    l2BlockNumber := fun _ => .ok 0
    l2TransactionReceipt := fun _ _ => .error "not found"
    l2TransactionByHash := fun _ _ => .error "not found"
    now := fun _ => 0 }

/-- A world whose oracle answers `resp32` and whose L2 height probe fails. -/
def worldL2Down : World :=
  constWorld (.ok resp32) (.ok 0) (.error "connection refused") (.error "not found")
    (.error "not found")

/-- A world for transaction queries: the L2 height probe answers `l2`, every
receipt query answers a receipt with the given status and block number, and
every transaction query answers a transaction with gas price 1. -/
def txWorld (l2 : Except Error Nat) (status : Nat) (blockNumber : Int) : World :=
  constWorld (.ok resp32) (.ok 0) l2
    (.ok { Status := status, BlockNumber := some blockNumber, GasUsed := 21000 })
    (.ok ({ GasPrice := 1 }, false))

/-- A world for transaction queries whose receipts carry no block number: the
L2 height probe answers 1000, every receipt query answers a successful receipt
with a nil `BlockNumber`, and every transaction query answers a transaction
with gas price 1. -/
def nilBlockWorld : World :=
  constWorld (.ok resp32) (.ok 0) (.ok 1000)
    (.ok { Status := 1, BlockNumber := none, GasUsed := 21000 })
    (.ok ({ GasPrice := 1 }, false))

/-- The transaction status expected in a `txWorld`. -/
def txStatus (txHash : String) (blockNumber : Nat) (status : String) (committed : Bool) :
    TransactionStatus :=
  { TxHash := txHash
    BlockNumber := blockNumber
    Status := status
    Committed := committed
    CommitmentAt := -300000000000
    ProofHash := "0xdef456..."
    GasUsed := 21000
    EffectiveGasPrice := "1" }

/-- The all-zero hash. -/
def zeroHash : Hash := List.replicate 32 0

/-! ## Helper definitions for the statements -/

/-- The call message both oracle queries send. -/
def oracleMsg (s : Service) : CallMsg :=
  { To := s.l2ooAddr, Data := bytesOfString "0x2e17de78" }

/-- The decoding both oracle queries apply to the answer of the node. -/
def decodeAnswer (r : Except Error Bytes) : Except Error Nat :=
  match r with
  | .error err => .error err
  | .ok result =>
    if 32 ≤ result.length then .ok (result.getD 31 0).val
    else .error "invalid result length"

/-- An oracle call fails: the node answers with an error or with fewer than 32 bytes. -/
def oracleCallFails (r : Except Error Bytes) : Prop :=
  match r with
  | .error _ => True
  | .ok result => result.length < 32

/-! ## Basic facts -/

theorem bytesOfString_selector :
    bytesOfString "0x2e17de78" = [48, 120, 50, 101, 49, 55, 100, 101, 55, 56] := by decide

theorem bigUint64_natCast (n : Nat) (h : n < 2 ^ 64) : bigUint64 (n : Int) = n := by
  unfold bigUint64 uint64Mod
  simp only [Int.natAbs_ofNat]
  exact Nat.mod_eq_of_lt h

theorem HexToHash_zz : HexToHash "zz" = List.replicate 32 0 := by decide

theorem HexToHash_short : HexToHash "0x01ff" = List.replicate 30 0 ++ [1, 255] := by decide

theorem getLatestBlockNumber_eq (s : Service) (w : World) (tr : Trace) :
    getLatestBlockNumber s w tr =
      (decodeAnswer (w.l1CallContract tr.length (oracleMsg s)),
        tr ++ [Call.l1CallContract (oracleMsg s)]) := by
  unfold getLatestBlockNumber decodeAnswer oracleMsg
  cases hc : w.l1CallContract tr.length
      { To := s.l2ooAddr, Data := bytesOfString "0x2e17de78" } with
  | error e => simp [hc]
  | ok result =>
    by_cases h : 32 ≤ result.length
    · have h31 : 31 < result.length := by omega
      simp [hc, h, List.getElem?_eq_getElem h31]
    · simp [hc, h]

theorem getLatestOutputIndex_eq (s : Service) (w : World) (tr : Trace) :
    getLatestOutputIndex s w tr =
      (decodeAnswer (w.l1CallContract tr.length (oracleMsg s)),
        tr ++ [Call.l1CallContract (oracleMsg s)]) := by
  unfold getLatestOutputIndex decodeAnswer oracleMsg
  cases hc : w.l1CallContract tr.length
      { To := s.l2ooAddr, Data := bytesOfString "0x2e17de78" } with
  | error e => simp [hc]
  | ok result =>
    by_cases h : 32 ≤ result.length
    · have h31 : 31 < result.length := by omega
      simp [hc, h, List.getElem?_eq_getElem h31]
    · simp [hc, h]

theorem decodeAnswer_le (r : Except Error Bytes) (n : Nat)
    (h : decodeAnswer r = .ok n) : n ≤ 255 := by
  unfold decodeAnswer at h
  cases r with
  | error e => simp at h
  | ok result =>
    by_cases hl : 32 ≤ result.length
    · simp only [hl, if_true] at h
      injection h with h
      have := (result.getD 31 0).isLt
      omega
    · simp [hl] at h

theorem decodeAnswer_error_iff (r : Except Error Bytes) :
    (∃ e, decodeAnswer r = .error e) ↔ oracleCallFails r := by
  unfold decodeAnswer oracleCallFails
  cases r with
  | error e => simp
  | ok result =>
    by_cases hl : 32 ≤ result.length
    · simp [hl]
    · simp [hl]; omega

theorem GetCommitmentStatus_eq (s : Service) (w : World) (tr : Trace) :
    GetCommitmentStatus s w tr =
      match decodeAnswer (w.l1CallContract tr.length (oracleMsg s)) with
      | .error e => (.error e, tr ++ [Call.l1CallContract (oracleMsg s)])
      | .ok n1 =>
        match decodeAnswer (w.l1CallContract (tr.length + 1) (oracleMsg s)) with
        | .error e =>
          (.error e, tr ++ [Call.l1CallContract (oracleMsg s), Call.l1CallContract (oracleMsg s)])
        | .ok n2 =>
          let tr2 := tr ++ [Call.l1CallContract (oracleMsg s), Call.l1CallContract (oracleMsg s)]
          (.ok { LatestBlockNumber := n1
                 LatestOutputIndex := n2
                 NextBlockNumber := addU64 n1 1800
                 LastProposalTime := w.now tr2.length - 10 * minute
                 TotalCommitments := addU64 n2 1
                 IsServiceHealthy := (checkServiceHealth w tr2).1
                 LastCommitmentHash := "0xabc123..."
                 ProofGenerationTime := "5 minutes"
                 Uptime := w.now (checkServiceHealth w tr2).2.length - s.startTime },
            (checkServiceHealth w tr2).2) := by
  unfold GetCommitmentStatus
  rw [getLatestBlockNumber_eq]
  cases h1 : decodeAnswer (w.l1CallContract tr.length (oracleMsg s)) with
  | error e => rfl
  | ok n1 =>
    simp only [getLatestOutputIndex_eq, List.length_append, List.length_singleton]
    cases h2 : decodeAnswer (w.l1CallContract (tr.length + 1) (oracleMsg s)) with
    | error e => simp
    | ok n2 => simp

/-! ## Oracle decoding and call data (C1, C10) -/

/-- C1, counterexample: on a 33-byte answer whose byte at index 31 is 1 and whose
final byte is 2, both oracle queries decode 1, not the final byte. -/
theorem C1_final_byte_counterexample :
    32 ≤ resp33.length ∧ resp33.getLast? = some 2 ∧
    world33.l1CallContract 0 (oracleMsg svc0) = .ok resp33 ∧
    (getLatestBlockNumber svc0 world33 []).1 = .ok 1 ∧
    (getLatestOutputIndex svc0 world33 []).1 = .ok 1 :=
  ⟨by decide, by decide, rfl, rfl, rfl⟩

/-- C1, amended: for every oracle answer of at least 32 bytes, both oracle queries
decode exactly the value of the byte at index 31, whatever the other bytes are;
when the answer has exactly 32 bytes this byte is the final one. -/
theorem C1_decodes_byte_at_index_31 (s : Service) (w : World) (tr : Trace) (resp : Bytes)
    (hcall : w.l1CallContract tr.length (oracleMsg s) = .ok resp)
    (hlen : 32 ≤ resp.length) :
    (getLatestBlockNumber s w tr).1 = .ok (resp.getD 31 0).val ∧
    (getLatestOutputIndex s w tr).1 = .ok (resp.getD 31 0).val ∧
    (resp.length = 32 → resp.getLast? = some (resp.getD 31 0)) := by
  refine ⟨?_, ?_, ?_⟩
  · rw [getLatestBlockNumber_eq, hcall]; simp [decodeAnswer, hlen]
  · rw [getLatestOutputIndex_eq, hcall]; simp [decodeAnswer, hlen]
  · intro h32
    have h31 : 31 < resp.length := by omega
    rw [List.getLast?_eq_getElem?, h32]
    simp [List.getElem?_eq_getElem h31]

/-- C1, witness: the amended statement at the 32-byte answer `resp32`. -/
theorem C1_decodes_byte_at_index_31_witness :
    (getLatestBlockNumber svc0 world32 []).1 = .ok (resp32.getD 31 0).val ∧
    (getLatestOutputIndex svc0 world32 []).1 = .ok (resp32.getD 31 0).val ∧
    (resp32.length = 32 → resp32.getLast? = some (resp32.getD 31 0)) :=
  C1_decodes_byte_at_index_31 svc0 world32 [] resp32 rfl (by decide)

/-- C10, evaluation of the code: both oracle queries issue exactly one contract call
to the oracle address, and its call data is the ten ASCII bytes of the text
`0x2e17de78`, the same for both queries; it is not the four-byte selector. -/
theorem C10_call_data_is_ten_ascii_bytes (s : Service) (w : World) (tr : Trace) :
    (getLatestBlockNumber s w tr).2 =
      tr ++ [Call.l1CallContract { To := s.l2ooAddr, Data := sentCallData }] ∧
    (getLatestOutputIndex s w tr).2 =
      tr ++ [Call.l1CallContract { To := s.l2ooAddr, Data := sentCallData }] ∧
    sentCallData.length = 10 ∧ sentCallData ≠ selector4 := by
  have hsel : bytesOfString "0x2e17de78" = sentCallData := by decide
  refine ⟨?_, ?_, by decide, by decide⟩
  · rw [getLatestBlockNumber_eq]; simp [oracleMsg, hsel]
  · rw [getLatestOutputIndex_eq]; simp [oracleMsg, hsel]

/-! ## Commitment status (C6, C8, C9) -/

/-- C6: `GetCommitmentStatus` returns an error exactly when the first oracle call
errors or answers fewer than 32 bytes, or the second one does; when the first
query fails its error is returned after that single call (no second call, no
health probe); the outcome does not depend on the health probes. -/
theorem C6_commitment_status_error_iff (s : Service) (w : World) (tr : Trace) :
    ((∃ e, (GetCommitmentStatus s w tr).1 = .error e) ↔
      oracleCallFails (w.l1CallContract tr.length (oracleMsg s)) ∨
      oracleCallFails (w.l1CallContract (tr.length + 1) (oracleMsg s))) ∧
    (∀ e, (getLatestBlockNumber s w tr).1 = .error e →
      GetCommitmentStatus s w tr = (.error e, tr ++ [Call.l1CallContract (oracleMsg s)])) ∧
    (∀ n e, (getLatestBlockNumber s w tr).1 = .ok n →
      (getLatestOutputIndex s w (tr ++ [Call.l1CallContract (oracleMsg s)])).1 = .error e →
      GetCommitmentStatus s w tr =
        (.error e, tr ++ [Call.l1CallContract (oracleMsg s), Call.l1CallContract (oracleMsg s)])) ∧
    (∀ l1 l2 : Nat → Except Error Nat,
      ((∃ e, (GetCommitmentStatus s { w with l1BlockNumber := l1, l2BlockNumber := l2 } tr).1
          = .error e) ↔
        (∃ e, (GetCommitmentStatus s w tr).1 = .error e))) := by
  have key : ∀ w : World, ((∃ e, (GetCommitmentStatus s w tr).1 = .error e) ↔
      oracleCallFails (w.l1CallContract tr.length (oracleMsg s)) ∨
      oracleCallFails (w.l1CallContract (tr.length + 1) (oracleMsg s))) := by
    intro w
    rw [← decodeAnswer_error_iff, ← decodeAnswer_error_iff, GetCommitmentStatus_eq]
    cases h1 : decodeAnswer (w.l1CallContract tr.length (oracleMsg s)) with
    | error e => simp
    | ok n1 =>
      cases h2 : decodeAnswer (w.l1CallContract (tr.length + 1) (oracleMsg s)) with
      | error e => simp
      | ok n2 => simp
  refine ⟨key w, ?_, ?_, ?_⟩
  · intro e he
    rw [getLatestBlockNumber_eq] at he
    rw [GetCommitmentStatus_eq]
    simp only at he
    rw [he]
  · intro n e hn he
    rw [getLatestBlockNumber_eq] at hn
    rw [getLatestOutputIndex_eq] at he
    simp only [List.length_append, List.length_singleton] at hn he
    rw [GetCommitmentStatus_eq, hn]
    simp only
    rw [he]
  · intro l1 l2
    rw [key, key]

/-- C6, witness: in a world whose first oracle call is refused, the status call
returns that error after a single contract call. -/
theorem C6_commitment_status_error_iff_witness :
    GetCommitmentStatus svc0 worldFirstFails [] =
      (.error "execution reverted", [] ++ [Call.l1CallContract (oracleMsg svc0)]) :=
  (C6_commitment_status_error_iff svc0 worldFirstFails []).2.1 "execution reverted" rfl

/-- C8: `CheckServiceHealth` returns a boolean (never an error), true exactly when
the L1 height probe and the L2 height probe both succeed and false when either
fails; the `IsServiceHealthy` field of every successful `GetCommitmentStatus`
result is the value of the health check run after the two oracle calls. -/
theorem C8_health_iff_both_probes (s : Service) (w : World) (tr : Trace) :
    ((CheckServiceHealth w tr).1 = true ↔
      (∃ h1, w.l1BlockNumber tr.length = .ok h1) ∧
      (∃ h2, w.l2BlockNumber (tr.length + 1) = .ok h2)) ∧
    (∀ e, w.l1BlockNumber tr.length = .error e → (CheckServiceHealth w tr).1 = false) ∧
    (∀ e, w.l2BlockNumber (tr.length + 1) = .error e → (CheckServiceHealth w tr).1 = false) ∧
    (∀ st, (GetCommitmentStatus s w tr).1 = .ok st →
      st.IsServiceHealthy =
        (CheckServiceHealth w
          (tr ++ [Call.l1CallContract (oracleMsg s), Call.l1CallContract (oracleMsg s)])).1) := by
  refine ⟨?_, ?_, ?_, ?_⟩
  · unfold CheckServiceHealth checkServiceHealth
    cases h1 : w.l1BlockNumber tr.length with
    | error e => simp
    | ok v1 =>
      cases h2 : w.l2BlockNumber (tr.length + 1) with
      | error e => simp
      | ok v2 => simp
  · intro e he
    unfold CheckServiceHealth checkServiceHealth
    simp [he]
  · intro e he
    unfold CheckServiceHealth checkServiceHealth
    cases h1 : w.l1BlockNumber tr.length with
    | error e1 => simp
    | ok v1 => simp [he]
  · intro st hst
    rw [GetCommitmentStatus_eq] at hst
    cases h1 : decodeAnswer (w.l1CallContract tr.length (oracleMsg s)) with
    | error e => rw [h1] at hst; simp at hst
    | ok n1 =>
      cases h2 : decodeAnswer (w.l1CallContract (tr.length + 1) (oracleMsg s)) with
      | error e => rw [h1, h2] at hst; simp at hst
      | ok n2 =>
        rw [h1, h2] at hst
        simp only at hst
        injection hst with hst
        rw [← hst]
        rfl

/-- C8, witness: with the L2 probe failing the health check is false, and with both
probes succeeding the status reports a healthy service. -/
theorem C8_health_iff_both_probes_witness :
    (CheckServiceHealth worldL2Down []).1 = false ∧
    status32.IsServiceHealthy =
      (CheckServiceHealth world32
        ([] ++ [Call.l1CallContract (oracleMsg svc0), Call.l1CallContract (oracleMsg svc0)])).1 :=
  ⟨(C8_health_iff_both_probes svc0 worldL2Down []).2.2.1 "connection refused" rfl,
   (C8_health_iff_both_probes svc0 world32 []).2.2.2 status32 rfl⟩

/-- C9: in every successful `GetCommitmentStatus` result, `NextBlockNumber` is
`LatestBlockNumber + 1800` and `TotalCommitments` is `LatestOutputIndex + 1` as
exact integers (the `uint64` additions do not wrap); both decoded values are at
most 255, so `NextBlockNumber ≤ 2055` and `TotalCommitments ≤ 256`. -/
theorem C9_next_block_and_total_exact (s : Service) (w : World) (tr : Trace)
    (st : CommitmentStatus) (hok : (GetCommitmentStatus s w tr).1 = .ok st) :
    st.NextBlockNumber = st.LatestBlockNumber + 1800 ∧
    st.NextBlockNumber - st.LatestBlockNumber = 1800 ∧
    st.TotalCommitments = st.LatestOutputIndex + 1 ∧
    st.LatestBlockNumber ≤ 255 ∧ st.LatestOutputIndex ≤ 255 ∧
    st.NextBlockNumber ≤ 2055 ∧ st.TotalCommitments ≤ 256 := by
  rw [GetCommitmentStatus_eq] at hok
  cases h1 : decodeAnswer (w.l1CallContract tr.length (oracleMsg s)) with
  | error e => rw [h1] at hok; simp at hok
  | ok n1 =>
    cases h2 : decodeAnswer (w.l1CallContract (tr.length + 1) (oracleMsg s)) with
    | error e => rw [h1, h2] at hok; simp at hok
    | ok n2 =>
      rw [h1, h2] at hok
      simp only at hok
      injection hok with hok
      have b1 := decodeAnswer_le _ _ h1
      have b2 := decodeAnswer_le _ _ h2
      rw [← hok]
      simp only [addU64, uint64Mod]
      omega

/-- C9, witness: the statement at the 32-byte answer `resp32` (decoded value 7). -/
theorem C9_next_block_and_total_exact_witness :
    (GetCommitmentStatus svc0 world32 []).1 = .ok status32 ∧
    status32.NextBlockNumber = status32.LatestBlockNumber + 1800 ∧
    status32.NextBlockNumber - status32.LatestBlockNumber = 1800 ∧
    status32.TotalCommitments = status32.LatestOutputIndex + 1 ∧
    status32.LatestBlockNumber ≤ 255 ∧ status32.LatestOutputIndex ≤ 255 ∧
    status32.NextBlockNumber ≤ 2055 ∧ status32.TotalCommitments ≤ 256 :=
  ⟨rfl, C9_next_block_and_total_exact svc0 world32 [] status32 rfl⟩

/-! ## Transaction status: normal forms -/

theorem getLatestCommittedBlock_trace (w : World) (tr : Trace) :
    (getLatestCommittedBlock w tr).2 = tr ++ [Call.l2BlockNumber] := by
  unfold getLatestCommittedBlock
  cases h : w.l2BlockNumber tr.length with
  | error e => rfl
  | ok v => by_cases hv : v > 10 <;> simp [hv]

theorem getLatestCommittedBlock_error (w : World) (tr : Trace) (e : Error)
    (h : w.l2BlockNumber tr.length = .error e) : (getLatestCommittedBlock w tr).1 = 0 := by
  unfold getLatestCommittedBlock
  rw [h]

theorem getLatestCommittedBlock_low (w : World) (tr : Trace) (v : Nat)
    (h : w.l2BlockNumber tr.length = .ok v) (hv : v ≤ 10) :
    (getLatestCommittedBlock w tr).1 = 0 := by
  unfold getLatestCommittedBlock
  rw [h]
  have : ¬ v > 10 := by omega
  simp [this]

theorem getLatestCommittedBlock_high (w : World) (tr : Trace) (v : Nat)
    (h : w.l2BlockNumber tr.length = .ok v) (hv : 10 < v) (hlt : v < 2 ^ 64) :
    (getLatestCommittedBlock w tr).1 = v - 10 := by
  unfold getLatestCommittedBlock
  rw [h]
  simp only [gt_iff_lt, hv, if_true, subU64, uint64Mod]
  omega

theorem GetTransactionStatus_eq (w : World) (txHash : String) (tr : Trace) :
    GetTransactionStatus w txHash tr =
      match w.l2TransactionReceipt tr.length (HexToHash txHash) with
      | .error e => (.error e, tr ++ [Call.l2TransactionReceipt (HexToHash txHash)])
      | .ok receipt =>
        match w.l2TransactionByHash (tr.length + 1) (HexToHash txHash) with
        | .error e =>
          (.error e, tr ++ [Call.l2TransactionReceipt (HexToHash txHash),
            Call.l2TransactionByHash (HexToHash txHash)])
        | .ok txp =>
          let tr2 := tr ++ [Call.l2TransactionReceipt (HexToHash txHash),
            Call.l2TransactionByHash (HexToHash txHash)]
          match receipt.BlockNumber with
          | none => (.panic, (getLatestCommittedBlock w tr2).2)
          | some blockNumber =>
            let committed :=
              decide (bigUint64 blockNumber ≤ (getLatestCommittedBlock w tr2).1)
            (.ok { TxHash := txHash
                   BlockNumber := bigUint64 blockNumber
                   Status :=
                     if receipt.Status = 1 then
                       (if committed then "committed" else "confirmed")
                     else "failed"
                   Committed := committed
                   CommitmentAt := w.now (getLatestCommittedBlock w tr2).2.length - 5 * minute
                   ProofHash := "0xdef456..."
                   GasUsed := receipt.GasUsed
                   EffectiveGasPrice := toString txp.1.GasPrice },
              (getLatestCommittedBlock w tr2).2) := by
  unfold GetTransactionStatus
  cases h1 : w.l2TransactionReceipt tr.length (HexToHash txHash) with
  | error e => simp [h1]
  | ok receipt =>
    cases h2 : w.l2TransactionByHash (tr.length + 1) (HexToHash txHash) with
    | error e => simp [h1, h2]
    | ok txp =>
      obtain ⟨tx, pend⟩ := txp
      cases h3 : receipt.BlockNumber with
      | none => simp [h1, h2, h3]
      | some bn => simp [h1, h2, h3]

theorem GetTransactionStatus_ok (w : World) (txHash : String) (tr : Trace)
    (st : TransactionStatus) (hok : (GetTransactionStatus w txHash tr).1 = .ok st) :
    ∃ receipt txp bn,
      w.l2TransactionReceipt tr.length (HexToHash txHash) = .ok receipt ∧
      w.l2TransactionByHash (tr.length + 1) (HexToHash txHash) = .ok txp ∧
      receipt.BlockNumber = some bn ∧
      st.BlockNumber = bigUint64 bn ∧
      st.Committed = decide (bigUint64 bn ≤
        (getLatestCommittedBlock w (tr ++ [Call.l2TransactionReceipt (HexToHash txHash),
          Call.l2TransactionByHash (HexToHash txHash)])).1) ∧
      st.Status =
        (if receipt.Status = 1 then (if st.Committed then "committed" else "confirmed")
         else "failed") := by
  rw [GetTransactionStatus_eq] at hok
  cases h1 : w.l2TransactionReceipt tr.length (HexToHash txHash) with
  | error e => rw [h1] at hok; simp at hok
  | ok receipt =>
    cases h2 : w.l2TransactionByHash (tr.length + 1) (HexToHash txHash) with
    | error e => rw [h1, h2] at hok; simp at hok
    | ok txp =>
      cases h3 : receipt.BlockNumber with
      | none => rw [h1, h2] at hok; simp [h3] at hok
      | some bn =>
        rw [h1, h2] at hok
        simp only [h3] at hok
        injection hok with hok
        refine ⟨receipt, txp, bn, rfl, rfl, h3, ?_, ?_, ?_⟩ <;> rw [← hok]

/-- When the receipt query and the details query both succeed and the receipt
carries a block number, `GetTransactionStatus` returns a status; if moreover
the L2 height probe fails, the latest committed block is 0 and the committed
flag is the comparison of the receipt's block number with 0.  An error of the
receipt query, or of the details query after a successful receipt query, is
returned unchanged. -/
theorem GetTransactionStatus_degrades (w : World) (txHash : String) (tr : Trace) :
    (∀ receipt txp bn,
      w.l2TransactionReceipt tr.length (HexToHash txHash) = .ok receipt →
      w.l2TransactionByHash (tr.length + 1) (HexToHash txHash) = .ok txp →
      receipt.BlockNumber = some bn →
      ∃ st, (GetTransactionStatus w txHash tr).1 = .ok st ∧
        (∀ e, w.l2BlockNumber (tr.length + 2) = .error e →
          (getLatestCommittedBlock w (tr ++ [Call.l2TransactionReceipt (HexToHash txHash),
            Call.l2TransactionByHash (HexToHash txHash)])).1 = 0 ∧
          st.Committed = decide (bigUint64 bn ≤ 0))) ∧
    (∀ e, w.l2TransactionReceipt tr.length (HexToHash txHash) = .error e →
      (GetTransactionStatus w txHash tr).1 = .error e) ∧
    (∀ receipt e,
      w.l2TransactionReceipt tr.length (HexToHash txHash) = .ok receipt →
      w.l2TransactionByHash (tr.length + 1) (HexToHash txHash) = .error e →
      (GetTransactionStatus w txHash tr).1 = .error e) := by
  refine ⟨?_, ?_, ?_⟩
  · intro receipt txp bn hr ht hb
    rw [GetTransactionStatus_eq, hr, ht]
    simp only [hb]
    refine ⟨_, rfl, ?_⟩
    intro e he
    have hz := getLatestCommittedBlock_error w
      (tr ++ [Call.l2TransactionReceipt (HexToHash txHash),
        Call.l2TransactionByHash (HexToHash txHash)]) e (by simpa using he)
    refine ⟨hz, ?_⟩
    simp only [hz]
  · intro e he
    rw [GetTransactionStatus_eq, he]
  · intro receipt e hr ht
    rw [GetTransactionStatus_eq, hr, ht]

/-- The previous statement at a receipt at block 7 with the L2 height probe
failing: a status is returned, not committed; and a failing receipt query is
returned as the error. -/
theorem GetTransactionStatus_degrades_example :
    (∃ st, (GetTransactionStatus (txWorld (.error "connection refused") 1 7) "0xab" []).1
        = .ok st ∧
      (∀ e, (txWorld (.error "connection refused") 1 7).l2BlockNumber
          (([] : Trace).length + 2) = .error e →
        (getLatestCommittedBlock (txWorld (.error "connection refused") 1 7)
          ([] ++ [Call.l2TransactionReceipt (HexToHash "0xab"),
            Call.l2TransactionByHash (HexToHash "0xab")])).1 = 0 ∧
        st.Committed = decide (bigUint64 7 ≤ 0))) ∧
    (GetTransactionStatus world32 "0xab" []).1 = .error "not found" :=
  ⟨(GetTransactionStatus_degrades (txWorld (.error "connection refused") 1 7) "0xab" []).1
      { Status := 1, BlockNumber := some 7, GasUsed := 21000 } ({ GasPrice := 1 }, false) 7
      rfl rfl rfl,
   (GetTransactionStatus_degrades world32 "0xab" []).2.1 "not found" rfl⟩

/-! ## Transaction status (C2, C3, C4, C5, C7) -/

/-- C2, counterexample: for the malformed hash string `zz`, with a connector that
answers every query, `GetTransactionStatus` returns a status, after sending the
receipt, details and height queries to the L2 connector. -/
theorem C2_malformed_hash_counterexample :
    GetTransactionStatus (txWorld (.ok 1000) 1 100) "zz" [] =
      (.ok (txStatus "zz" 100 "committed" true),
        [Call.l2TransactionReceipt zeroHash, Call.l2TransactionByHash zeroHash,
          Call.l2BlockNumber]) := by
  rfl

/-- C2, amended: `GetTransactionStatus` does not validate `txHash`.  For every
string it sends the receipt query for `HexToHash txHash` to the L2 connector,
and it returns an error exactly when the receipt query or the details query
is answered with an error. -/
theorem C2_every_hash_reaches_connector (w : World) (txHash : String) (tr : Trace) :
    (∃ rest, (GetTransactionStatus w txHash tr).2 =
      tr ++ Call.l2TransactionReceipt (HexToHash txHash) :: rest) ∧
    ((∃ e, (GetTransactionStatus w txHash tr).1 = .error e) ↔
      (∃ e, w.l2TransactionReceipt tr.length (HexToHash txHash) = .error e) ∨
      (∃ e, w.l2TransactionByHash (tr.length + 1) (HexToHash txHash) = .error e)) := by
  rw [GetTransactionStatus_eq]
  cases h1 : w.l2TransactionReceipt tr.length (HexToHash txHash) with
  | error e => exact ⟨⟨[], rfl⟩, by simp⟩
  | ok receipt =>
    cases h2 : w.l2TransactionByHash (tr.length + 1) (HexToHash txHash) with
    | error e => exact ⟨⟨[_], rfl⟩, by simp⟩
    | ok txp =>
      cases h3 : receipt.BlockNumber with
      | none =>
        simp only [h3]
        refine ⟨⟨[Call.l2TransactionByHash (HexToHash txHash), Call.l2BlockNumber], ?_⟩,
          by simp⟩
        simp [getLatestCommittedBlock_trace]
      | some bn =>
        simp only [h3]
        refine ⟨⟨[Call.l2TransactionByHash (HexToHash txHash), Call.l2BlockNumber], ?_⟩,
          by simp⟩
        simp [getLatestCommittedBlock_trace]

/-- C3: in every successful `GetTransactionStatus` result the status is `failed`
exactly when the receipt's status is not 1, whatever the block number and the
L2 height; otherwise it is `committed` when the committed flag is true and
`confirmed` when it is false; it is never `pending`.  The committed flag is the
comparison of the receipt's block number with the latest committed block and
does not depend on the receipt's status. -/
theorem C3_status_from_receipt (w : World) (txHash : String) (tr : Trace)
    (st : TransactionStatus) (hok : (GetTransactionStatus w txHash tr).1 = .ok st) :
    ∃ receipt bn, w.l2TransactionReceipt tr.length (HexToHash txHash) = .ok receipt ∧
      receipt.BlockNumber = some bn ∧
      (st.Status = "failed" ↔ receipt.Status ≠ 1) ∧
      (receipt.Status = 1 → st.Committed = true → st.Status = "committed") ∧
      (receipt.Status = 1 → st.Committed = false → st.Status = "confirmed") ∧
      st.Status ≠ "pending" ∧
      st.Committed = decide (bigUint64 bn ≤
        (getLatestCommittedBlock w (tr ++ [Call.l2TransactionReceipt (HexToHash txHash),
          Call.l2TransactionByHash (HexToHash txHash)])).1) := by
  obtain ⟨receipt, txp, bn, hr, _, hbn, _, hc, hs⟩ :=
    GetTransactionStatus_ok w txHash tr st hok
  refine ⟨receipt, bn, hr, hbn, ?_, ?_, ?_, ?_, hc⟩
  · rw [hs]
    by_cases h1 : receipt.Status = 1
    · cases hcm : st.Committed <;> simp [h1]
    · simp [h1]
  · intro h1 hcm; rw [hs]; simp [h1, hcm]
  · intro h1 hcm; rw [hs]; simp [h1, hcm]
  · rw [hs]
    by_cases h1 : receipt.Status = 1
    · cases hcm : st.Committed <;> simp [h1]
    · simp [h1]

/-- C3, witness: receipt at block 100, execution failed, L2 height 50: the status
is `failed` and the committed flag is false. -/
theorem C3_status_from_receipt_witness :
    (GetTransactionStatus (txWorld (.ok 50) 0 100) "0xab" []).1 =
      .ok (txStatus "0xab" 100 "failed" false) ∧
    ∃ receipt bn, (txWorld (.ok 50) 0 100).l2TransactionReceipt ([] : Trace).length
        (HexToHash "0xab") = .ok receipt ∧
      receipt.BlockNumber = some bn ∧
      ((txStatus "0xab" 100 "failed" false).Status = "failed" ↔ receipt.Status ≠ 1) ∧
      (receipt.Status = 1 → (txStatus "0xab" 100 "failed" false).Committed = true →
        (txStatus "0xab" 100 "failed" false).Status = "committed") ∧
      (receipt.Status = 1 → (txStatus "0xab" 100 "failed" false).Committed = false →
        (txStatus "0xab" 100 "failed" false).Status = "confirmed") ∧
      (txStatus "0xab" 100 "failed" false).Status ≠ "pending" ∧
      (txStatus "0xab" 100 "failed" false).Committed = decide (bigUint64 bn ≤
        (getLatestCommittedBlock (txWorld (.ok 50) 0 100)
          ([] ++ [Call.l2TransactionReceipt (HexToHash "0xab"),
            Call.l2TransactionByHash (HexToHash "0xab")])).1) :=
  ⟨rfl, C3_status_from_receipt (txWorld (.ok 50) 0 100) "0xab" []
    (txStatus "0xab" 100 "failed" false) rfl⟩

/-- C4, counterexample: with L2 height 5 the latest committed block is 0, and a
successful receipt at block 0 is returned with the committed flag true and the
status `committed`. -/
theorem C4_block_zero_counterexample :
    (5 : Nat) ≤ 10 ∧
    (getLatestCommittedBlock (txWorld (.ok 5) 1 0) []).1 = 0 ∧
    (GetTransactionStatus (txWorld (.ok 5) 1 0) "0xab" []).1 =
      .ok (txStatus "0xab" 0 "committed" true) :=
  ⟨by decide, rfl, rfl⟩

/-- C4, amended: for every L2 height `h ≤ 10`, `getLatestCommittedBlock` returns 0,
and for every receipt whose block number is at least 1 `GetTransactionStatus`
returns the committed flag false and a status other than `committed`. -/
theorem C4_low_height_nothing_above_zero_committed (w : World) (txHash : String)
    (tr : Trace) (h : Nat) (hle : h ≤ 10) :
    (w.l2BlockNumber tr.length = .ok h → (getLatestCommittedBlock w tr).1 = 0) ∧
    (w.l2BlockNumber (tr.length + 2) = .ok h →
      ∀ st, (GetTransactionStatus w txHash tr).1 = .ok st →
        ∃ receipt bn, w.l2TransactionReceipt tr.length (HexToHash txHash) = .ok receipt ∧
          receipt.BlockNumber = some bn ∧
          st.BlockNumber = bigUint64 bn ∧
          (1 ≤ bigUint64 bn →
            st.Committed = false ∧ st.Status ≠ "committed")) := by
  refine ⟨fun hh => getLatestCommittedBlock_low w tr h hh hle, ?_⟩
  intro hh st hok
  obtain ⟨receipt, txp, bn, hr, _, hbn, hb, hc, hs⟩ :=
    GetTransactionStatus_ok w txHash tr st hok
  refine ⟨receipt, bn, hr, hbn, hb, ?_⟩
  intro hpos
  have hz := getLatestCommittedBlock_low w
    (tr ++ [Call.l2TransactionReceipt (HexToHash txHash),
      Call.l2TransactionByHash (HexToHash txHash)]) h (by simpa using hh) hle
  rw [hz] at hc
  have hcf : st.Committed = false := by
    rw [hc]; simp; omega
  refine ⟨hcf, ?_⟩
  rw [hs, hcf]
  by_cases h1 : receipt.Status = 1 <;> simp [h1]

/-- C4, witness: L2 height 5 and a successful receipt at block 3. -/
theorem C4_low_height_nothing_above_zero_committed_witness :
    (getLatestCommittedBlock (txWorld (.ok 5) 1 3) []).1 = 0 ∧
    ∃ receipt bn, (txWorld (.ok 5) 1 3).l2TransactionReceipt ([] : Trace).length
        (HexToHash "0xab") = .ok receipt ∧
      receipt.BlockNumber = some bn ∧
      (txStatus "0xab" 3 "confirmed" false).BlockNumber = bigUint64 bn ∧
      (1 ≤ bigUint64 bn →
        (txStatus "0xab" 3 "confirmed" false).Committed = false ∧
        (txStatus "0xab" 3 "confirmed" false).Status ≠ "committed") :=
  ⟨(C4_low_height_nothing_above_zero_committed (txWorld (.ok 5) 1 3) "0xab" [] 5
      (by decide)).1 rfl,
   (C4_low_height_nothing_above_zero_committed (txWorld (.ok 5) 1 3) "0xab" [] 5
      (by decide)).2 rfl (txStatus "0xab" 3 "confirmed" false) rfl⟩

/-- C5: for every L2 height `h > 10` (a `uint64`), `getLatestCommittedBlock` returns
exactly `h - 10`, the subtraction not wrapping, and the committed flag returned
by `GetTransactionStatus` is true exactly when the receipt's block number is at
most `h - 10`. -/
theorem C5_high_height_committed_iff (w : World) (txHash : String) (tr : Trace) (h : Nat)
    (hgt : 10 < h) (hlt : h < 2 ^ 64) :
    (w.l2BlockNumber tr.length = .ok h → (getLatestCommittedBlock w tr).1 = h - 10) ∧
    (w.l2BlockNumber (tr.length + 2) = .ok h →
      ∀ st, (GetTransactionStatus w txHash tr).1 = .ok st →
        ∃ receipt bn, w.l2TransactionReceipt tr.length (HexToHash txHash) = .ok receipt ∧
          receipt.BlockNumber = some bn ∧
          st.BlockNumber = bigUint64 bn ∧
          (st.Committed = true ↔ bigUint64 bn ≤ h - 10)) := by
  refine ⟨fun hh => getLatestCommittedBlock_high w tr h hh hgt hlt, ?_⟩
  intro hh st hok
  obtain ⟨receipt, txp, bn, hr, _, hbn, hb, hc, _⟩ :=
    GetTransactionStatus_ok w txHash tr st hok
  refine ⟨receipt, bn, hr, hbn, hb, ?_⟩
  have hz := getLatestCommittedBlock_high w
    (tr ++ [Call.l2TransactionReceipt (HexToHash txHash),
      Call.l2TransactionByHash (HexToHash txHash)]) h (by simpa using hh) hgt hlt
  rw [hz] at hc
  rw [hc]
  simp

/-- C5, witness: L2 height 1000 gives latest committed block 990; a receipt at block
990 is committed and a receipt at block 991 is not. -/
theorem C5_high_height_committed_iff_witness :
    (getLatestCommittedBlock (txWorld (.ok 1000) 1 990) []).1 = 1000 - 10 ∧
    (GetTransactionStatus (txWorld (.ok 1000) 1 990) "0xab" []).1 =
      .ok (txStatus "0xab" 990 "committed" true) ∧
    (GetTransactionStatus (txWorld (.ok 1000) 1 991) "0xab" []).1 =
      .ok (txStatus "0xab" 991 "confirmed" false) ∧
    (∃ receipt bn, (txWorld (.ok 1000) 1 990).l2TransactionReceipt ([] : Trace).length
        (HexToHash "0xab") = .ok receipt ∧
      receipt.BlockNumber = some bn ∧
      (txStatus "0xab" 990 "committed" true).BlockNumber = bigUint64 bn ∧
      ((txStatus "0xab" 990 "committed" true).Committed = true ↔
        bigUint64 bn ≤ 1000 - 10)) ∧
    (∃ receipt bn, (txWorld (.ok 1000) 1 991).l2TransactionReceipt ([] : Trace).length
        (HexToHash "0xab") = .ok receipt ∧
      receipt.BlockNumber = some bn ∧
      (txStatus "0xab" 991 "confirmed" false).BlockNumber = bigUint64 bn ∧
      ((txStatus "0xab" 991 "confirmed" false).Committed = true ↔
        bigUint64 bn ≤ 1000 - 10)) :=
  ⟨(C5_high_height_committed_iff (txWorld (.ok 1000) 1 990) "0xab" [] 1000
      (by decide) (by decide)).1 rfl,
   rfl, rfl,
   (C5_high_height_committed_iff (txWorld (.ok 1000) 1 990) "0xab" [] 1000
      (by decide) (by decide)).2 rfl (txStatus "0xab" 990 "committed" true) rfl,
   (C5_high_height_committed_iff (txWorld (.ok 1000) 1 991) "0xab" [] 1000
      (by decide) (by decide)).2 rfl (txStatus "0xab" 991 "confirmed" false) rfl⟩

/-- C7, evaluation of the code: the receipt query and the details query both
succeed, the receipt carries no block number, and `GetTransactionStatus` ends
in a panic after the height probe instead of returning a status. -/
theorem C7_nil_block_number_panics :
    nilBlockWorld.l2TransactionReceipt 0 (HexToHash "0xab") =
      .ok { Status := 1, BlockNumber := none, GasUsed := 21000 } ∧
    nilBlockWorld.l2TransactionByHash 1 (HexToHash "0xab") =
      .ok ({ GasPrice := 1 }, false) ∧
    GetTransactionStatus nilBlockWorld "0xab" [] =
      (.panic,
        [Call.l2TransactionReceipt (HexToHash "0xab"),
          Call.l2TransactionByHash (HexToHash "0xab"), Call.l2BlockNumber]) :=
  ⟨rfl, rfl, rfl⟩

end CommitmentService
